import Mathlib

/-!
Shallow embedding of `src/smart_traffic_system.c` (smart-traffic-light-system).

The C program keeps a single mutable `TrafficSystem` struct with four
traffic lights and four vehicle sensors indexed by a `Direction` enum,
plus a timing configuration and an emergency flag.  The controller
function `controlLights` additionally keeps a `static time_t lastChange`;
we model that piece of state explicitly, so the controller is a pure
function `TrafficSystem → Int → Int → TrafficSystem × Int` taking the
current `lastChange` and the current time and returning the updated
system together with the updated `lastChange`.  Timestamps and durations
are `Int` (C `time_t` / `int` arithmetic; no overflow is relevant at the
values involved).
-/

/-- C enum `Direction` : `{NORTH, SOUTH, EAST, WEST}`. -/
inductive Direction where
  | north
  | south
  | east
  | west
deriving DecidableEq

/-- C enum `LightState` : `{RED, GREEN, YELLOW}`. -/
inductive LightState where
  | red
  | green
  | yellow
deriving DecidableEq

/-- C struct `TrafficLight`. -/
structure TrafficLight where
  state : LightState
  duration : Int
  direction : Direction
deriving DecidableEq

/-- C struct `VehicleSensor`. -/
structure VehicleSensor where
  vehicleDetected : Bool
  direction : Direction
  detectionTime : Int
deriving DecidableEq

/-- C struct `TrafficSystem`: the `lights[4]` and `sensors[4]` arrays are
modelled as total functions from the index enum `Direction`. -/
structure TrafficSystem where
  lights : Direction → TrafficLight
  sensors : Direction → VehicleSensor
  greenDuration : Int
  yellowDuration : Int
  minGreenTime : Int
  maxGreenTime : Int
  emergencyMode : Bool

/-- Write one array slot: `system->lights[d].state = st`. -/
def setLightState (lights : Direction → TrafficLight) (d : Direction)
    (st : LightState) : Direction → TrafficLight :=
  Function.update lights d { lights d with state := st }

/-- C `initializeSystem`: all lights RED with duration 0, all sensors clear,
and the fixed default timing configuration. -/
def initializeSystem : TrafficSystem where
  lights := fun d => { state := LightState.red, duration := 0, direction := d }
  sensors := fun d => { vehicleDetected := false, direction := d, detectionTime := 0 }
  greenDuration := 30
  yellowDuration := 5
  minGreenTime := 10
  maxGreenTime := 60
  emergencyMode := false

/-- C `updateSensors`: store the presence flag; record the current time as
`detectionTime` only when `detected` is true (`now` stands for `time(NULL)`). -/
def updateSensors (system : TrafficSystem) (dir : Direction) (detected : Bool)
    (now : Int) : TrafficSystem :=
  { system with
    sensors := Function.update system.sensors dir
      { system.sensors dir with
        vehicleDetected := detected
        detectionTime := if detected then now else (system.sensors dir).detectionTime } }

/-- C `calculateDensity`: 3 points per direction whose sensor reads true. -/
def calculateDensity (system : TrafficSystem) (primary secondary : Direction) : Int :=
  (if (system.sensors primary).vehicleDetected then 3 else 0) +
  (if (system.sensors secondary).vehicleDetected then 3 else 0)

/-- C `adjustTiming`: skewed assignment `base±15/base−10` when one axis
density exceeds the other by more than 4, otherwise `base` everywhere;
then every duration is forced into `[minGreenTime, maxGreenTime]`. -/
def adjustTiming (system : TrafficSystem) : TrafficSystem :=
  let nsDensity := calculateDensity system Direction.north Direction.south
  let ewDensity := calculateDensity system Direction.east Direction.west
  let baseTime := system.greenDuration
  let assigned : Direction → Int :=
    if nsDensity > ewDensity + 4 then
      fun d => match d with
        | Direction.north => baseTime + 15
        | Direction.south => baseTime + 15
        | Direction.east => baseTime - 10
        | Direction.west => baseTime - 10
    else if ewDensity > nsDensity + 4 then
      fun d => match d with
        | Direction.east => baseTime + 15
        | Direction.west => baseTime + 15
        | Direction.north => baseTime - 10
        | Direction.south => baseTime - 10
    else
      fun _ => baseTime
  let limited : Int → Int := fun dur =>
    let dur := if dur < system.minGreenTime then system.minGreenTime else dur
    if dur > system.maxGreenTime then system.maxGreenTime else dur
  { system with
    lights := fun d => { system.lights d with duration := limited (assigned d) } }

/-- The scan `for (i = 0; i < 4; i++) if (lights[i].state == GREEN) break;`
in `controlLights`: index of the first GREEN light, `none` for `-1`. -/
def activeGreen (system : TrafficSystem) : Option Direction :=
  if (system.lights Direction.north).state = LightState.green then some Direction.north
  else if (system.lights Direction.south).state = LightState.green then some Direction.south
  else if (system.lights Direction.east).state = LightState.green then some Direction.east
  else if (system.lights Direction.west).state = LightState.green then some Direction.west
  else none

/-- Lines 147–163 of `controlLights` ("Switch to next green light"):
if `activeGreen` was NORTH or SOUTH switch the EAST–WEST axis to green,
otherwise switch the NORTH–SOUTH axis to green; then `lastChange =
currentTime; adjustTiming(system);`. -/
def switchToGreen (system : TrafficSystem) (ag : Option Direction)
    (currentTime : Int) : TrafficSystem × Int :=
  if ag = some Direction.north ∨ ag = some Direction.south then
    let l := setLightState system.lights Direction.east LightState.green
    let l := setLightState l Direction.west LightState.green
    let l := setLightState l Direction.north LightState.red
    let l := setLightState l Direction.south LightState.red
    (adjustTiming { system with lights := l }, currentTime)
  else
    let l := setLightState system.lights Direction.north LightState.green
    let l := setLightState l Direction.south LightState.green
    let l := setLightState l Direction.east LightState.red
    let l := setLightState l Direction.west LightState.red
    (adjustTiming { system with lights := l }, currentTime)

/-- C `controlLights`, with the `static time_t lastChange` and
`time_t currentTime = time(NULL)` made explicit arguments and the updated
`lastChange` returned.  Mirrors the source structure: emergency override
first (returning with `lastChange` untouched); otherwise, when
`activeGreen == -1 || elapsed >= lights[activeGreen].duration`, the
"switch to yellow before changing" block (note the source ternary
`activeGreen == NORTH ? SOUTH : activeGreen`), and else the
switch-to-next-green block. -/
def controlLights (system : TrafficSystem) (lastChange currentTime : Int) :
    TrafficSystem × Int :=
  let elapsed := currentTime - lastChange
  if system.emergencyMode then
    let l : Direction → TrafficLight :=
      fun d => { system.lights d with state := LightState.red }
    let l := setLightState l Direction.north LightState.green
    let l := setLightState l Direction.south LightState.green
    ({ system with lights := l }, lastChange)
  else
    match activeGreen system with
    | some g =>
      if elapsed ≥ (system.lights g).duration then
        if (system.lights g).state = LightState.green then
          let l := setLightState system.lights g LightState.yellow
          let l := setLightState l
            (if g = Direction.north then Direction.south else g) LightState.yellow
          ({ system with lights := l }, currentTime)
        else
          switchToGreen system (some g) currentTime
      else
        (system, lastChange)
    | none => switchToGreen system none currentTime

/-- The full controller state: the shared `TrafficSystem` plus the
`static time_t lastChange` owned by `controlLights` (it is `0` before the
first tick, C static initialisation). -/
structure ControlState where
  sys : TrafficSystem
  lastChange : Int

/-- The three kinds of events that mutate the shared state in the program:
a controller tick (`controlLights` in the main loop), a sensor update
(`updateSensors` from the sensor thread), and a write to the emergency
flag (`system.emergencyMode = true/false` in the main loop). -/
inductive Event where
  | tick (currentTime : Int)
  | sensor (dir : Direction) (detected : Bool) (now : Int)
  | emergency (flag : Bool)

/-- Apply one event to the controller state. -/
def applyEvent (cs : ControlState) : Event → ControlState
  | Event.tick t =>
    let r := controlLights cs.sys cs.lastChange t
    { sys := r.1, lastChange := r.2 }
  | Event.sensor d b now => { cs with sys := updateSensors cs.sys d b now }
  | Event.emergency f => { cs with sys := { cs.sys with emergencyMode := f } }

/-- States reachable from the freshly initialised system by any
interleaving of ticks, sensor updates and emergency-flag writes. -/
inductive Reachable : ControlState → Prop where
  | init : Reachable { sys := initializeSystem, lastChange := 0 }
  | step {cs : ControlState} (e : Event) : Reachable cs → Reachable (applyEvent cs e)


/-! ### Properties stated over the embedding -/

/-- The spec's per-axis light-state invariant: North and South share one
`LightState`, East and West share one `LightState`. -/
def axisStatesOk (s : TrafficSystem) : Prop :=
  (s.lights Direction.north).state = (s.lights Direction.south).state ∧
  (s.lights Direction.east).state = (s.lights Direction.west).state

/-- Strengthened inductive invariant actually maintained by the code:
North and South share one state, and East and West are both RED (the
"switch to EAST-WEST" branch of `controlLights` is unreachable, so the
EW axis never leaves RED). -/
def nsEwRedInv (s : TrafficSystem) : Prop :=
  (s.lights Direction.north).state = (s.lights Direction.south).state ∧
  (s.lights Direction.east).state = LightState.red ∧
  (s.lights Direction.west).state = LightState.red

/-- The spec's per-axis duration invariant: `duration(NS)` and
`duration(EW)` are well defined. -/
def axisDurationsOk (s : TrafficSystem) : Prop :=
  (s.lights Direction.north).duration = (s.lights Direction.south).duration ∧
  (s.lights Direction.east).duration = (s.lights Direction.west).duration

/-- The spec's configuration invariant
`0 < minGreenSeconds ≤ baseGreenSeconds ≤ maxGreenSeconds`. -/
def validConfig (s : TrafficSystem) : Prop :=
  0 < s.minGreenTime ∧ s.minGreenTime ≤ s.greenDuration ∧
  s.greenDuration ≤ s.maxGreenTime

/-- The raw (pre-clamp) duration of the spec's TimingPolicy, written from
the spec's words: with `densityNS`/`densityEW` the axis densities (3 per
direction whose presence reads true, which is `calculateDensity`), if
`densityNS > densityEW + 4` the NS axis gets `base+15` and the EW axis
`base-10`, symmetrically for EW, otherwise everybody gets `base`. -/
def specRawDuration (sys : TrafficSystem) (d : Direction) : Int :=
  let densityNS := calculateDensity sys Direction.north Direction.south
  let densityEW := calculateDensity sys Direction.east Direction.west
  let base := sys.greenDuration
  if densityNS > densityEW + 4 then
    if d = Direction.north ∨ d = Direction.south then base + 15 else base - 10
  else if densityEW > densityNS + 4 then
    if d = Direction.east ∨ d = Direction.west then base + 15 else base - 10
  else base

/-- Spec step 3: clamp a computed duration into
`[minGreenSeconds, maxGreenSeconds]`. -/
def specClamp (sys : TrafficSystem) (v : Int) : Int :=
  if v < sys.minGreenTime then sys.minGreenTime
  else if v > sys.maxGreenTime then sys.maxGreenTime
  else v

/-! ### Concrete runs used as test vectors -/

/-- A system whose East and West lights are both GREEN with duration 30
(the spec's `EW_GREEN` phase shape) and North and South RED. -/
def ewGreenSystem : TrafficSystem :=
  { initializeSystem with
    lights := fun d =>
      { state :=
          if d = Direction.east ∨ d = Direction.west then LightState.green
          else LightState.red
        duration := 30
        direction := d } }

/-- Initial state, then one tick at time 0: the first decision switches the
NS axis to GREEN with adjusted durations (all 30 with quiet sensors). -/
def firstTick : ControlState :=
  applyEvent { sys := initializeSystem, lastChange := 0 } (Event.tick 0)

/-- `firstTick` followed by a tick at time 30 (the NS green hold has
elapsed): North and South turn YELLOW. -/
def nsYellowRun : ControlState := applyEvent firstTick (Event.tick 30)

/-- The state after emergency mode was switched on, one tick ran under it,
and the flag was switched back off: the moment `emergencyActive`
transitions from true to false. -/
def postEmergency : ControlState :=
  applyEvent (applyEvent (applyEvent { sys := initializeSystem, lastChange := 0 }
    (Event.emergency true)) (Event.tick 1)) (Event.emergency false)

/-- The initial system with the emergency flag switched on
(`system.emergencyMode = true` in the main loop). -/
def emergencySystem : TrafficSystem :=
  { initializeSystem with emergencyMode := true }

/-- The system as it stands right after the emergency flag transitions
from true to false: one tick ran with the flag set (forcing the lights),
then the flag was cleared. -/
def emergencyExit (s0 : TrafficSystem) (lc0 t0 : Int) : TrafficSystem :=
  { (controlLights s0 lc0 t0).1 with emergencyMode := false }

/-- The initial system with vehicles detected on North and South only
(a density-skewed sensor snapshot). -/
def nsBusySystem : TrafficSystem :=
  updateSensors (updateSensors initializeSystem Direction.north true 1)
    Direction.south true 2

/-! ### Helper lemmas -/

theorem setLightState_duration (l : Direction → TrafficLight) (d d' : Direction)
    (st : LightState) : (setLightState l d st d').duration = (l d').duration := by
  by_cases h : d' = d
  · subst h; simp [setLightState]
  · simp [setLightState, Function.update, h]

theorem adjustTiming_lights_state (s : TrafficSystem) (d : Direction) :
    ((adjustTiming s).lights d).state = (s.lights d).state := rfl

theorem adjustTiming_durations_pair (s : TrafficSystem) :
    ((adjustTiming s).lights Direction.north).duration =
      ((adjustTiming s).lights Direction.south).duration ∧
    ((adjustTiming s).lights Direction.east).duration =
      ((adjustTiming s).lights Direction.west).duration := by
  unfold adjustTiming
  dsimp only
  split_ifs <;> simp

theorem controlLights_preserves (s : TrafficSystem) (lc t : Int) :
    (controlLights s lc t).1.sensors = s.sensors ∧
    (controlLights s lc t).1.greenDuration = s.greenDuration ∧
    (controlLights s lc t).1.yellowDuration = s.yellowDuration ∧
    (controlLights s lc t).1.minGreenTime = s.minGreenTime ∧
    (controlLights s lc t).1.maxGreenTime = s.maxGreenTime ∧
    (controlLights s lc t).1.emergencyMode = s.emergencyMode := by
  unfold controlLights switchToGreen
  cases hEm : s.emergencyMode
  · cases hag : activeGreen s
    · simp only [hEm, hag]
      split_ifs <;> exact ⟨rfl, rfl, rfl, rfl, rfl, rfl⟩
    · simp only [hEm, hag]
      split_ifs <;> first
      | exact ⟨rfl, rfl, rfl, rfl, rfl, rfl⟩
      | exact ⟨rfl, rfl, rfl, rfl, rfl, hEm⟩
  · simp only [hEm]
    split_ifs <;> exact ⟨rfl, rfl, rfl, rfl, rfl, rfl⟩

theorem controlLights_emergencyMode (s : TrafficSystem) (lc t : Int) :
    (controlLights s lc t).1.emergencyMode = s.emergencyMode :=
  (controlLights_preserves s lc t).2.2.2.2.2

theorem controlLights_emergency_eq (s : TrafficSystem) (lc t : Int)
    (hEm : s.emergencyMode = true) :
    controlLights s lc t =
      ({ s with lights := fun d =>
          { s.lights d with
            state :=
              if d = Direction.north ∨ d = Direction.south then LightState.green
              else LightState.red } }, lc) := by
  have hl : setLightState (setLightState
      (fun d => { s.lights d with state := LightState.red })
      Direction.north LightState.green) Direction.south LightState.green =
      fun d =>
        { s.lights d with
          state :=
            if d = Direction.north ∨ d = Direction.south then LightState.green
            else LightState.red } := by
    funext d
    cases d <;> simp [setLightState, Function.update]
  unfold controlLights
  simp [hEm, hl]

theorem activeGreen_of_north_green (s : TrafficSystem)
    (hN : (s.lights Direction.north).state = LightState.green) :
    activeGreen s = some Direction.north := by
  simp [activeGreen, hN]

theorem controlLights_north_green_eq (s : TrafficSystem) (lc t : Int)
    (hEm : s.emergencyMode = false)
    (hN : (s.lights Direction.north).state = LightState.green) :
    controlLights s lc t =
      if t - lc ≥ (s.lights Direction.north).duration then
        ({ s with
            lights := setLightState
              (setLightState s.lights Direction.north LightState.yellow)
              Direction.south LightState.yellow }, t)
      else (s, lc) := by
  have hag := activeGreen_of_north_green s hN
  unfold controlLights
  simp [hEm, hag, hN]

theorem switchToGreen_none_eq (s : TrafficSystem) (t : Int) :
    switchToGreen s none t =
      (adjustTiming { s with
        lights := setLightState (setLightState (setLightState
          (setLightState s.lights Direction.north LightState.green)
          Direction.south LightState.green)
          Direction.east LightState.red)
          Direction.west LightState.red }, t) := by
  simp [switchToGreen]

theorem activeGreen_green (s : TrafficSystem) (g : Direction)
    (hag : activeGreen s = some g) :
    (s.lights g).state = LightState.green := by
  unfold activeGreen at hag
  split_ifs at hag <;> simp_all

theorem controlLights_none_eq (s : TrafficSystem) (lc t : Int)
    (hEm : s.emergencyMode = false) (hag : activeGreen s = none) :
    controlLights s lc t = switchToGreen s none t := by
  unfold controlLights
  simp [hEm, hag]

theorem controlLights_some_green_eq (s : TrafficSystem) (lc t : Int)
    (g : Direction) (hEm : s.emergencyMode = false)
    (hag : activeGreen s = some g) :
    controlLights s lc t =
      if t - lc ≥ (s.lights g).duration then
        ({ s with
            lights := setLightState (setLightState s.lights g LightState.yellow)
              (if g = Direction.north then Direction.south else g)
              LightState.yellow }, t)
      else (s, lc) := by
  have hg := activeGreen_green s g hag
  unfold controlLights
  simp [hEm, hag, hg]

theorem nsEwRedInv_controlLights (s : TrafficSystem) (lc t : Int)
    (h : nsEwRedInv s) : nsEwRedInv (controlLights s lc t).1 := by
  obtain ⟨hNS, hE, hW⟩ := h
  cases hEm : s.emergencyMode
  · by_cases hN : (s.lights Direction.north).state = LightState.green
    · rw [controlLights_north_green_eq s lc t hEm hN]
      split_ifs
      · refine ⟨?_, ?_, ?_⟩ <;>
          simp [setLightState, Function.update, hE, hW]
      · exact ⟨hNS, hE, hW⟩
    · have hS : ¬ (s.lights Direction.south).state = LightState.green := by
        rw [← hNS]; exact hN
      have hag : activeGreen s = none := by
        simp [activeGreen, hN, hS, hE, hW]
      rw [controlLights_none_eq s lc t hEm hag, switchToGreen_none_eq]
      refine ⟨?_, ?_, ?_⟩ <;>
        simp [adjustTiming_lights_state, setLightState, Function.update]
  · rw [controlLights_emergency_eq s lc t hEm]
    refine ⟨?_, ?_, ?_⟩ <;> simp

theorem nsEwRedInv_applyEvent (cs : ControlState) (e : Event)
    (h : nsEwRedInv cs.sys) : nsEwRedInv (applyEvent cs e).sys := by
  cases e with
  | tick t => exact nsEwRedInv_controlLights cs.sys cs.lastChange t h
  | sensor d b now => exact h
  | emergency f => exact h

theorem nsEwRedInv_reachable (cs : ControlState) (h : Reachable cs) :
    nsEwRedInv cs.sys := by
  induction h with
  | init => exact ⟨rfl, rfl, rfl⟩
  | step e h ih => exact nsEwRedInv_applyEvent _ e ih

theorem axisDurationsOk_controlLights (s : TrafficSystem) (lc t : Int)
    (h : axisDurationsOk s) : axisDurationsOk (controlLights s lc t).1 := by
  obtain ⟨hNS, hEW⟩ := h
  cases hEm : s.emergencyMode
  · cases hag : activeGreen s with
    | none =>
      rw [controlLights_none_eq s lc t hEm hag, switchToGreen_none_eq]
      exact adjustTiming_durations_pair _
    | some g =>
      rw [controlLights_some_green_eq s lc t g hEm hag]
      split_ifs <;>
        exact ⟨by simp [setLightState_duration, hNS],
          by simp [setLightState_duration, hEW]⟩
  · rw [controlLights_emergency_eq s lc t hEm]
    exact ⟨hNS, hEW⟩

theorem axisDurationsOk_applyEvent (cs : ControlState) (e : Event)
    (h : axisDurationsOk cs.sys) : axisDurationsOk (applyEvent cs e).sys := by
  cases e with
  | tick t => exact axisDurationsOk_controlLights cs.sys cs.lastChange t h
  | sensor d b now => exact h
  | emergency f => exact h

theorem validConfig_applyEvent (cs : ControlState) (e : Event)
    (h : validConfig cs.sys) : validConfig (applyEvent cs e).sys := by
  cases e with
  | tick t =>
    obtain ⟨h1, h2, h3⟩ := h
    obtain ⟨-, hg, -, hmin, hmax, -⟩ := controlLights_preserves cs.sys cs.lastChange t
    refine ⟨?_, ?_, ?_⟩
    · show 0 < (controlLights cs.sys cs.lastChange t).1.minGreenTime
      rw [hmin]; exact h1
    · show (controlLights cs.sys cs.lastChange t).1.minGreenTime ≤
        (controlLights cs.sys cs.lastChange t).1.greenDuration
      rw [hmin, hg]; exact h2
    · show (controlLights cs.sys cs.lastChange t).1.greenDuration ≤
        (controlLights cs.sys cs.lastChange t).1.maxGreenTime
      rw [hg, hmax]; exact h3
  | sensor d b now => exact h
  | emergency f => exact h

theorem emergency_tick_idem (s : TrafficSystem) (lc t lc2 t2 : Int)
    (hEm : s.emergencyMode = true) :
    controlLights (controlLights s lc t).1 lc2 t2 =
      ((controlLights s lc t).1, lc2) := by
  have hEm2 : (controlLights s lc t).1.emergencyMode = true := by
    rw [controlLights_emergencyMode]; exact hEm
  rw [controlLights_emergency_eq _ lc2 t2 hEm2, controlLights_emergency_eq s lc t hEm]

/-! ### Claims -/

/-- Claim C2: in every state reachable from the initial state, via any
interleaving of controller ticks, sensor updates and emergency-flag
toggles, North and South have identical `LightState` and East and West
have identical `LightState`. -/
theorem c2_axis_state_invariant (cs : ControlState) (h : Reachable cs) :
    axisStatesOk cs.sys := by
  obtain ⟨hNS, hE, hW⟩ := nsEwRedInv_reachable cs h
  exact ⟨hNS, hE.trans hW.symm⟩

/-- Witness for C2: the invariant holds at the concrete reachable state
obtained from the initial state by one controller tick. -/
theorem c2_axis_state_invariant_witness : axisStatesOk firstTick.sys :=
  c2_axis_state_invariant firstTick (Reachable.step (Event.tick 0) Reachable.init)

/-- Claim C8: every reachable state carries a configuration satisfying
`0 < minGreenTime ≤ greenDuration ≤ maxGreenTime`; the core never
operates on an invalid configuration (the only constructor,
`initializeSystem`, takes no configuration input and installs the fixed
valid default, and no operation writes the configuration fields). -/
theorem c8_valid_config_always (cs : ControlState) (h : Reachable cs) :
    validConfig cs.sys := by
  induction h with
  | init => exact ⟨by decide, by decide, by decide⟩
  | step e h ih => exact validConfig_applyEvent _ e ih

/-- Witness for C8 at a concrete reachable state. -/
theorem c8_valid_config_always_witness : validConfig firstTick.sys :=
  c8_valid_config_always firstTick (Reachable.step (Event.tick 0) Reachable.init)

/-- Claim C10: in every reachable state North and South carry equal
durations, and East and West carry equal durations, so the spec's
`duration(NS)` / `duration(EW)` notation is well defined. -/
theorem c10_axis_durations_invariant (cs : ControlState) (h : Reachable cs) :
    axisDurationsOk cs.sys := by
  induction h with
  | init => exact ⟨rfl, rfl⟩
  | step e h ih => exact axisDurationsOk_applyEvent _ e ih

/-- Witness for C10 at a concrete reachable state that has gone through
`adjustTiming` (one controller tick from the initial state). -/
theorem c10_axis_durations_invariant_witness : axisDurationsOk firstTick.sys :=
  c10_axis_durations_invariant firstTick (Reachable.step (Event.tick 0) Reachable.init)

/-- Claim C4: whenever the emergency flag is set, a single controller
tick forces North and South to GREEN and East and West to RED, for every
prior light configuration and regardless of the elapsed time (the result
does not depend on `lastChange` or `currentTime`), and nothing else
changes: durations, sensors, configuration and `lastChange` are all left
as they were — no normal elapsed-time transition occurs. -/
theorem c4_emergency_override (s : TrafficSystem) (lc t : Int)
    (hEm : s.emergencyMode = true) :
    controlLights s lc t =
      ({ s with
          lights := fun d =>
            { s.lights d with
              state :=
                if d = Direction.north ∨ d = Direction.south then LightState.green
                else LightState.red } }, lc) :=
  controlLights_emergency_eq s lc t hEm

/-- Witness for C4: a concrete emergency tick with nonzero elapsed time. -/
theorem c4_emergency_override_witness :
    controlLights emergencySystem 7 99 =
      ({ emergencySystem with
          lights := fun d =>
            { emergencySystem.lights d with
              state :=
                if d = Direction.north ∨ d = Direction.south then LightState.green
                else LightState.red } }, 7) :=
  c4_emergency_override emergencySystem 7 99 rfl

/-- Claim C9: `updateSensors system dir detected now` stores `detected`
in `sensors[dir].vehicleDetected`, stores `now` in
`sensors[dir].detectionTime` exactly when `detected` is true (the
timestamp is untouched otherwise), always succeeds (it is a total
function), and changes nothing else: the other sensors, all lights, the
configuration fields and the emergency flag are unchanged. -/
theorem c9_updateSensors_contract (s : TrafficSystem) (dir : Direction)
    (detected : Bool) (now : Int) :
    (∀ d, (updateSensors s dir detected now).sensors d =
      if d = dir then
        { vehicleDetected := detected
          direction := (s.sensors dir).direction
          detectionTime := if detected then now else (s.sensors dir).detectionTime }
      else s.sensors d) ∧
    (updateSensors s dir detected now).lights = s.lights ∧
    (updateSensors s dir detected now).greenDuration = s.greenDuration ∧
    (updateSensors s dir detected now).yellowDuration = s.yellowDuration ∧
    (updateSensors s dir detected now).minGreenTime = s.minGreenTime ∧
    (updateSensors s dir detected now).maxGreenTime = s.maxGreenTime ∧
    (updateSensors s dir detected now).emergencyMode = s.emergencyMode := by
  refine ⟨fun d => ?_, rfl, rfl, rfl, rfl, rfl, rfl⟩
  by_cases hd : d = dir
  · subst hd; simp [updateSensors]
  · simp [updateSensors, Function.update, hd]


theorem adjustTiming_duration_eq (s : TrafficSystem) (d : Direction) :
    ((adjustTiming s).lights d).duration =
      if (if specRawDuration s d < s.minGreenTime then s.minGreenTime
          else specRawDuration s d) > s.maxGreenTime then s.maxGreenTime
      else if specRawDuration s d < s.minGreenTime then s.minGreenTime
      else specRawDuration s d := by
  by_cases h1 : calculateDensity s Direction.north Direction.south >
      calculateDensity s Direction.east Direction.west + 4
  · cases d <;> simp [adjustTiming, specRawDuration, h1]
  · by_cases h2 : calculateDensity s Direction.east Direction.west >
        calculateDensity s Direction.north Direction.south + 4
    · cases d <;> simp [adjustTiming, specRawDuration, h1, h2]
    · cases d <;> simp [adjustTiming, specRawDuration, h1, h2]

/-- Claim C6: for every sensor snapshot and every configuration with
`minGreenTime ≤ maxGreenTime`, `adjustTiming` (over `calculateDensity`,
which scores 3 per direction whose presence reads true) assigns each
direction the spec's raw duration — `base+15` to North/South and
`base−10` to East/West when `densityNS > densityEW + 4`, symmetrically
when `densityEW > densityNS + 4`, and `base` to all four otherwise —
clamped into `[minGreenTime, maxGreenTime]`; the result lies in that
interval, and a raw value already equal to the minimum or the maximum
passes through unchanged. -/
theorem c6_adjustTiming_contract (s : TrafficSystem)
    (hMM : s.minGreenTime ≤ s.maxGreenTime) (d : Direction) :
    calculateDensity s Direction.north Direction.south =
      ((if (s.sensors Direction.north).vehicleDetected then 3 else 0) +
       (if (s.sensors Direction.south).vehicleDetected then 3 else 0)) ∧
    ((adjustTiming s).lights d).duration = specClamp s (specRawDuration s d) ∧
    s.minGreenTime ≤ ((adjustTiming s).lights d).duration ∧
    ((adjustTiming s).lights d).duration ≤ s.maxGreenTime ∧
    (specRawDuration s d = s.minGreenTime →
      ((adjustTiming s).lights d).duration = specRawDuration s d) ∧
    (specRawDuration s d = s.maxGreenTime →
      ((adjustTiming s).lights d).duration = specRawDuration s d) := by
  have he := adjustTiming_duration_eq s d
  refine ⟨rfl, ?_, ?_, ?_, ?_, ?_⟩ <;>
    rw [he] <;> (try simp only [specClamp]) <;> split_ifs <;> omega

/-- Witness for C6: the density-skewed snapshot (vehicles detected on
North and South only) under the default configuration. -/
theorem c6_adjustTiming_contract_witness :
    ((adjustTiming nsBusySystem).lights Direction.north).duration =
      specClamp nsBusySystem (specRawDuration nsBusySystem Direction.north) ∧
    nsBusySystem.minGreenTime ≤
      ((adjustTiming nsBusySystem).lights Direction.north).duration :=
  ⟨(c6_adjustTiming_contract nsBusySystem (by decide) Direction.north).2.1,
   (c6_adjustTiming_contract nsBusySystem (by decide) Direction.north).2.2.1⟩

/-- Claim C1, evaluated at the failing input: from the reachable
NS_YELLOW state (North and South YELLOW, East and West RED, reached from
the initial state by ticks at times 0 and 30), the next controller tick
does not produce EW_GREEN — it switches North and South back to GREEN
and leaves East and West RED, because the green scan returns `-1` on a
yellow-only state and the switch code then always takes the
NORTH–SOUTH branch. -/
theorem c1_ns_yellow_tick_yields_ns_green :
    ((nsYellowRun.sys.lights Direction.north).state = LightState.yellow ∧
     (nsYellowRun.sys.lights Direction.south).state = LightState.yellow ∧
     (nsYellowRun.sys.lights Direction.east).state = LightState.red ∧
     (nsYellowRun.sys.lights Direction.west).state = LightState.red) ∧
    ((applyEvent nsYellowRun (Event.tick 31)).sys.lights Direction.north).state =
      LightState.green ∧
    ((applyEvent nsYellowRun (Event.tick 31)).sys.lights Direction.south).state =
      LightState.green ∧
    ((applyEvent nsYellowRun (Event.tick 31)).sys.lights Direction.east).state =
      LightState.red ∧
    ((applyEvent nsYellowRun (Event.tick 31)).sys.lights Direction.west).state =
      LightState.red := by
  decide

/-- Claim C3, evaluated at the failing input: ticking a state in which
East and West are both GREEN with the hold expired turns only East
YELLOW — West stays GREEN, because the source ternary
`activeGreen == NORTH ? SOUTH : activeGreen` writes the EAST slot a
second time instead of WEST.  The timestamp is reset as claimed. -/
theorem c3_ew_green_tick_leaves_west_green :
    ((controlLights ewGreenSystem 0 40).1.lights Direction.east).state =
      LightState.yellow ∧
    ((controlLights ewGreenSystem 0 40).1.lights Direction.west).state =
      LightState.green ∧
    (controlLights ewGreenSystem 0 40).2 = 40 := by
  decide

/-- Counterexample to C5: in a concrete run where the emergency flag goes
from true to false (emergency switched on at the initial state, one tick
at time 1, flag cleared), the next controller tick at time 2 does not
yield NS_GREEN — it turns North and South YELLOW, since the state keeps
the stale `lastChange` and the durations left over from before the
emergency. -/
theorem c5_counterexample :
    ¬ (((applyEvent postEmergency (Event.tick 2)).sys.lights Direction.north).state =
        LightState.green ∧
       ((applyEvent postEmergency (Event.tick 2)).sys.lights Direction.south).state =
        LightState.green) := by
  decide

/-- Claim C5 as amended: when the emergency flag transitions from true to
false, the lights stand at North/South GREEN and East/West RED (forced
by the last emergency tick), but the deactivation itself recomputes no
durations and resets no timestamp; the next controller tick treats the
state as an ordinary North/South-green phase — it is a no-op while
`elapsed < duration(North)`, and otherwise switches North and South to
YELLOW and resets the timestamp. -/
theorem c5_amended_emergency_exit (s0 : TrafficSystem) (lc0 t0 lc t : Int)
    (hEm0 : s0.emergencyMode = true) :
    ((emergencyExit s0 lc0 t0).lights Direction.north).state = LightState.green ∧
    ((emergencyExit s0 lc0 t0).lights Direction.south).state = LightState.green ∧
    ((emergencyExit s0 lc0 t0).lights Direction.east).state = LightState.red ∧
    ((emergencyExit s0 lc0 t0).lights Direction.west).state = LightState.red ∧
    controlLights (emergencyExit s0 lc0 t0) lc t =
      (if t - lc ≥ ((emergencyExit s0 lc0 t0).lights Direction.north).duration then
        ({ emergencyExit s0 lc0 t0 with
            lights := setLightState
              (setLightState (emergencyExit s0 lc0 t0).lights
                Direction.north LightState.yellow)
              Direction.south LightState.yellow }, t)
      else (emergencyExit s0 lc0 t0, lc)) := by
  have he := controlLights_emergency_eq s0 lc0 t0 hEm0
  have hN : ((emergencyExit s0 lc0 t0).lights Direction.north).state =
      LightState.green := by
    unfold emergencyExit
    rw [he]
    simp
  refine ⟨hN, ?_, ?_, ?_, controlLights_north_green_eq _ lc t rfl hN⟩ <;>
    (unfold emergencyExit; rw [he]; simp)

/-- Witness for C5's amended statement: the concrete emergency run
(emergency tick at time 1 from the initial state, flag cleared, next
tick at time 2). -/
theorem c5_amended_emergency_exit_witness :
    ((emergencyExit emergencySystem 0 1).lights Direction.north).state =
      LightState.green ∧
    controlLights (emergencyExit emergencySystem 0 1) 0 2 =
      (if 2 - 0 ≥ ((emergencyExit emergencySystem 0 1).lights Direction.north).duration then
        ({ emergencyExit emergencySystem 0 1 with
            lights := setLightState
              (setLightState (emergencyExit emergencySystem 0 1).lights
                Direction.north LightState.yellow)
              Direction.south LightState.yellow }, 2)
      else (emergencyExit emergencySystem 0 1, 0)) :=
  ⟨(c5_amended_emergency_exit emergencySystem 0 1 0 2 rfl).1,
   (c5_amended_emergency_exit emergencySystem 0 1 0 2 rfl).2.2.2.2⟩

/-- Counterexample to C7: the claimed idempotence fails on the concrete
run where the NS green hold has just expired — the first tick at time 30
turns North YELLOW, and a second tick at the same time 30 turns North
back to GREEN, so the state after the second call differs from the state
after the first. -/
theorem c7_counterexample :
    ((applyEvent nsYellowRun (Event.tick 30)).sys.lights Direction.north).state ≠
      (nsYellowRun.sys.lights Direction.north).state := by
  decide

/-- Claim C7 as amended: evaluating `controlLights` twice at the same
instant leaves the state of the first call unchanged whenever emergency
is active, or the first call was a no-op, or the first call left an
active green light with positive duration and stamped the current time
(i.e. it switched into a green phase); it is exactly the green-to-yellow
tick, which leaves no green light, whose repetition at the same instant
moves on to NORTH/SOUTH green. -/
theorem c7_amended_idempotence (s : TrafficSystem) (lc t : Int)
    (h : s.emergencyMode = true ∨ controlLights s lc t = (s, lc) ∨
      (∃ g, activeGreen (controlLights s lc t).1 = some g ∧
        0 < ((controlLights s lc t).1.lights g).duration ∧
        (controlLights s lc t).2 = t)) :
    controlLights (controlLights s lc t).1 (controlLights s lc t).2 t =
      controlLights s lc t := by
  by_cases hEm : s.emergencyMode = true
  · rw [emergency_tick_idem s lc t (controlLights s lc t).2 t hEm]
  · rcases h with hEm' | hid | ⟨g, hag, hdur, hlc⟩
    · exact absurd hEm' hEm
    · rw [hid]; exact hid
    · have hEm2 : (controlLights s lc t).1.emergencyMode = false := by
        rw [controlLights_emergencyMode]
        exact Bool.eq_false_iff.mpr hEm
      rw [controlLights_some_green_eq _ _ t g hEm2 hag,
        if_neg (by rw [hlc]; omega)]

/-- Witness for C7's amended statement: the very first tick from the
initial state switches into NORTH/SOUTH green (duration 30, timestamp
stamped), and repeating it at the same instant changes nothing. -/
theorem c7_amended_idempotence_witness :
    controlLights (controlLights initializeSystem 0 0).1
        (controlLights initializeSystem 0 0).2 0 =
      controlLights initializeSystem 0 0 :=
  c7_amended_idempotence initializeSystem 0 0
    (Or.inr (Or.inr ⟨Direction.north, by decide, by decide, by decide⟩))
